import Mathlib

/-!
Shallow embedding of the room-assistant GPIO integration
(`src/integrations/gpio/gpio.service.ts`) and proofs about its bootstrap,
edge-watch and shutdown behaviour.

The service is modelled as an explicit state machine over `BridgeState`:
every externally visible effect of the TypeScript code (registering an
entity through `EntitiesService.add`, opening a pin with `new Gpio(...)`,
pushing the handle onto `this.gpios`, attaching `gpio.watch`, unexporting a
handle on shutdown) is recorded as an `Event` in an effect trace.  Opened
pin handles are identified by their allocation index (0, 1, 2, ...), which
mirrors object identity of the successive `new Gpio` results.  Fallible
external operations (`EntitiesService.add`, the `Gpio` constructor,
`unexport`) are driven by an oracle `Env` that decides which invocation
fails, so that error-path claims can be stated as theorems quantified over
the oracle.  The id utility `makeId` lives outside the listing and is taken
as an arbitrary function parameter.
-/

namespace GpioService

/-- Direction a pin is opened in; from the second argument of
`new Gpio(pin, 'in' | 'out', ...)`. -/
inductive Direction
  | input
  | output
deriving DecidableEq

/-- Edge configuration for a watched input pin; the source passes `'both'`
for binary sensors and nothing for switches. -/
inductive EdgeMode
  | both
deriving DecidableEq

/-- Entity customization attached on registration, from the
`customizations` arrays built in `createBinarySensor` (overriding
`deviceClass`) and `createSwitch` (overriding `icon`).  The device class
enum and the icon are kept opaque as strings. -/
inductive Customization
  | forSensor (deviceClass : Option String)
  | forSwitch (icon : Option String)
deriving DecidableEq

/-- One externally visible effect of the service. -/
inductive Event
  | addEntity (id : String) (name : String) (cust : Customization)
  | openPin (handle : Nat) (pin : Nat) (dir : Direction) (edge : Option EdgeMode)
  | push (handle : Nat)
  | watch (handle : Nat)
deriving DecidableEq

/-- State of the service: the allocation counter for pin handles, the
counter of registry-add invocations (used only as an oracle key), the
`gpios` array of the TypeScript class, and the effect trace. -/
structure BridgeState where
  nextHandle : Nat
  nextAdd : Nat
  gpios : List Nat
  trace : List Event
deriving DecidableEq

/-- State of the service right after construction: no handle opened, no
entity registered. -/
def initialState : BridgeState := ⟨0, 0, [], []⟩

/-- Failure oracle for the external collaborators: `addFails n` decides
whether the `n`-th `EntitiesService.add` call throws, `openFails h` whether
the construction of handle `h` (the `h`-th `new Gpio`) throws, and
`unexportFails h` whether `unexport` on handle `h` throws. -/
structure Env where
  addFails : Nat → Bool
  openFails : Nat → Bool
  unexportFails : Nat → Bool

/-- One binary-sensor declaration from `config.binarySensors`. -/
structure SensorDecl where
  name : String
  pin : Nat
  deviceClass : Option String
deriving DecidableEq

/-- One switch declaration from `config.switches`. -/
structure SwitchDecl where
  name : String
  pin : Nat
  icon : Option String
deriving DecidableEq

/-- The `gpio` configuration block consumed in `onApplicationBootstrap`. -/
structure GpioConfig where
  binarySensors : List SensorDecl
  switches : List SwitchDecl
deriving DecidableEq

/-- Entity id derivation, `makeId(`gpio ${name}`)` in the source.  `makeId`
itself is the external id utility, passed in as a function. -/
def entityId (makeId : String → String) (name : String) : String :=
  makeId ("gpio " ++ name)

/-- Embedding of `GpioService.createBinarySensor`: register the sensor
entity (with the `deviceClass` customization) through the registry, then
open the pin as an input watching both edges, push the handle onto
`this.gpios` and attach the watch callback.  A throwing collaborator call
aborts with the state reached so far. -/
def createBinarySensor (makeId : String → String) (env : Env) (st : BridgeState)
    (d : SensorDecl) : Except BridgeState BridgeState :=
  if env.addFails st.nextAdd then
    .error st
  else
    let st1 : BridgeState :=
      { st with
        nextAdd := st.nextAdd + 1
        trace := st.trace ++
          [.addEntity (entityId makeId d.name) d.name (.forSensor d.deviceClass)] }
    if env.openFails st1.nextHandle then
      .error st1
    else
      let h := st1.nextHandle
      .ok { st1 with
            nextHandle := h + 1
            gpios := st1.gpios ++ [h]
            trace := st1.trace ++
              [.openPin h d.pin .input (some .both), .push h, .watch h] }

/-- Embedding of `GpioService.createSwitch`: open the pin as an output,
push the handle onto `this.gpios`, then register the `GpioSwitch` entity
(with the `icon` customization) through the registry.  A throwing
collaborator call aborts with the state reached so far. -/
def createSwitch (makeId : String → String) (env : Env) (st : BridgeState)
    (d : SwitchDecl) : Except BridgeState BridgeState :=
  if env.openFails st.nextHandle then
    .error st
  else
    let h := st.nextHandle
    let st1 : BridgeState :=
      { st with
        nextHandle := h + 1
        gpios := st.gpios ++ [h]
        trace := st.trace ++ [.openPin h d.pin .output none, .push h] }
    if env.addFails st1.nextAdd then
      .error st1
    else
      .ok { st1 with
            nextAdd := st1.nextAdd + 1
            trace := st1.trace ++
              [.addEntity (entityId makeId d.name) d.name (.forSwitch d.icon)] }

/-- The `config.binarySensors.forEach(...)` loop: process sensor
declarations in order; an exception thrown by one iteration propagates and
ends the loop. -/
def processSensors (makeId : String → String) (env : Env) (st : BridgeState) :
    List SensorDecl → Except BridgeState BridgeState
  | [] => .ok st
  | d :: ds =>
    match createBinarySensor makeId env st d with
    | .ok st' => processSensors makeId env st' ds
    | .error e => .error e

/-- The `config.switches.forEach(...)` loop, analogous to
`processSensors`. -/
def processSwitches (makeId : String → String) (env : Env) (st : BridgeState) :
    List SwitchDecl → Except BridgeState BridgeState
  | [] => .ok st
  | d :: ds =>
    match createSwitch makeId env st d with
    | .ok st' => processSwitches makeId env st' ds
    | .error e => .error e

/-- Embedding of `GpioService.onApplicationBootstrap`: all binary sensors
first, then all switches, starting from the freshly constructed service. -/
def onApplicationBootstrap (makeId : String → String) (env : Env)
    (cfg : GpioConfig) : Except BridgeState BridgeState :=
  match processSensors makeId env initialState cfg.binarySensors with
  | .ok st => processSwitches makeId env st cfg.switches
  | .error e => .error e

/-- Embedding of `GpioService.onApplicationShutdown`:
`this.gpios.forEach((gpio) => gpio.unexport())`.  Returns the list of
handles on which `unexport` was invoked, in invocation order, together
with the handle whose `unexport` threw, if any.  There is no error
handling in the source, so a throwing `unexport` ends the `forEach` loop
and the exception propagates. -/
def shutdownCalls (env : Env) : List Nat → List Nat × Option Nat
  | [] => ([], none)
  | h :: rest =>
    if env.unexportFails h then
      ([h], some h)
    else
      let r := shutdownCalls env rest
      (h :: r.1, r.2)

/-- The handles recorded as opened in a trace, in opening order. -/
def openedHandles (tr : List Event) : List Nat :=
  tr.filterMap fun e =>
    match e with
    | .openPin h _ _ _ => some h
    | _ => none

/-- One delivery of the `gpio.watch` callback `(err, value) => ...`:
either a successful read carrying the raw level, or a read error. -/
inductive Notification
  | ok (level : Nat)
  | err
deriving DecidableEq

/-- Observable state of one binary-sensor entity together with the history
of state writes performed by its watch callback and the number of errors
logged. -/
structure SensorSim where
  state : Option Bool
  writes : List Bool
  errorsLogged : Nat
deriving DecidableEq

/-- A sensor entity before any edge notification arrived. -/
def sensorInit : SensorSim := ⟨none, [], 0⟩

/-- The watch callback attached in `createBinarySensor`: on an error it
logs and returns without touching the entity; on a successful read it sets
`binarySensor.state = Boolean(value)`. -/
def watchCallback (s : SensorSim) (n : Notification) : SensorSim :=
  match n with
  | .err => { s with errorsLogged := s.errorsLogged + 1 }
  | .ok v =>
    { s with state := some (v != 0), writes := s.writes ++ [v != 0] }

/-- Observable state of one `GpioSwitch` entity: its externally visible
boolean state and the list of levels written to the bound output pin. -/
structure GpioSwitchSim where
  state : Option Bool
  pinWrites : List Nat
deriving DecidableEq

/-- Modelled from the spec: the class `GpioSwitch`
(`src/integrations/gpio/gpio.switch.ts`) is imported by the service but
its file is not part of the listing.  Per the spec, `setState` of a switch
entity bound to an output pin synchronously performs one
`write(boundPin, desired ? 1 : 0)`; on success the externally visible
state becomes the desired value, and on a failed write the state keeps its
prior value.  `writeOk` says whether the single pin write succeeds. -/
def GpioSwitch.setState (writeOk : Bool) (sw : GpioSwitchSim) (desired : Bool) :
    GpioSwitchSim × Bool :=
  let level := if desired then 1 else 0
  let sw1 : GpioSwitchSim := { sw with pinWrites := sw.pinWrites ++ [level] }
  if writeOk then
    ({ sw1 with state := some desired }, true)
  else
    (sw1, false)

/-! Concrete oracles and declarations used by witnesses and
counterexamples. -/

/-- Oracle on which every collaborator call succeeds. -/
def envOkAll : Env := ⟨fun _ => false, fun _ => false, fun _ => false⟩

/-- Oracle on which every registry `add` throws and everything else
succeeds. -/
def envAddFailAll : Env := ⟨fun _ => true, fun _ => false, fun _ => false⟩

/-- Oracle on which every `new Gpio` throws and everything else
succeeds. -/
def envOpenFailAll : Env := ⟨fun _ => false, fun _ => true, fun _ => false⟩

/-- Oracle on which only `unexport` of handle 0 throws. -/
def envRelFail0 : Env := ⟨fun _ => false, fun _ => false, fun h => h == 0⟩

/-- Oracle on which only the construction of handle 1 throws. -/
def envOpenFail1 : Env := ⟨fun _ => false, fun h => h == 1, fun _ => false⟩

/-- A concrete sensor declaration. -/
def dW : SensorDecl := ⟨"door", 4, none⟩

/-- A second concrete sensor declaration. -/
def dW2 : SensorDecl := ⟨"window", 5, some "opening"⟩

/-- A concrete switch declaration. -/
def wW : SwitchDecl := ⟨"lamp", 17, some "mdi-lightbulb"⟩

/-- A second concrete switch declaration. -/
def wW2 : SwitchDecl := ⟨"fan", 18, none⟩

/-- A concrete configuration: one sensor, one switch. -/
def cfgW : GpioConfig := ⟨[dW], [wW]⟩

/-- Bridge state after bootstrapping `cfgW` on `envOkAll`. -/
def stW : BridgeState :=
  ⟨2, 2, [0, 1],
   [.addEntity "gpio door" "door" (.forSensor none),
    .openPin 0 4 .input (some .both), .push 0, .watch 0,
    .openPin 1 17 .output none, .push 1,
    .addEntity "gpio lamp" "lamp" (.forSwitch (some "mdi-lightbulb"))]⟩

/-- Bridge state after creating the single binary sensor `dW` on
`envOkAll`. -/
def stSensorW : BridgeState :=
  ⟨1, 1, [0],
   [.addEntity "gpio door" "door" (.forSensor none),
    .openPin 0 4 .input (some .both), .push 0, .watch 0]⟩

/-- Bridge state after creating the single switch `wW` on `envOkAll`. -/
def stSwitchW : BridgeState :=
  ⟨1, 1, [0],
   [.openPin 0 17 .output none, .push 0,
    .addEntity "gpio lamp" "lamp" (.forSwitch (some "mdi-lightbulb"))]⟩

/-- Error state of `createBinarySensor dW` when the pin construction
throws: the entity is registered but no pin is open. -/
def eSenOpenW : BridgeState :=
  ⟨0, 1, [], [.addEntity "gpio door" "door" (.forSensor none)]⟩

/-- Error state of `createSwitch wW` when the registry `add` throws: the
pin is open and tracked. -/
def eSwW : BridgeState :=
  ⟨1, 0, [0], [.openPin 0 17 .output none, .push 0]⟩

/-- Error state of bootstrapping `⟨[dW, dW2], []⟩` on `envOpenFail1`: the
first sensor is fully set up, the second is registered but its pin
construction threw. -/
def eW9 : BridgeState :=
  ⟨1, 2, [0],
   [.addEntity "gpio door" "door" (.forSensor none),
    .openPin 0 4 .input (some .both), .push 0, .watch 0,
    .addEntity "gpio window" "window" (.forSensor (some "opening"))]⟩

/-! Characterization lemmas for the two create operations and the
bootstrap loops. -/

/-- The registry invariant: the `gpios` array lists exactly the handles
opened so far, which are allocated consecutively, in allocation order. -/
def RegInv (st : BridgeState) : Prop :=
  st.gpios = List.range st.nextHandle ∧
    openedHandles st.trace = List.range st.nextHandle

theorem regInv_initial : RegInv initialState := by
  constructor <;> rfl

theorem openedHandles_append (t1 t2 : List Event) :
    openedHandles (t1 ++ t2) = openedHandles t1 ++ openedHandles t2 :=
  List.filterMap_append t1 t2 _

theorem createBinarySensor_ok {makeId : String → String} {env : Env}
    {st st' : BridgeState} {d : SensorDecl}
    (h : createBinarySensor makeId env st d = .ok st') :
    env.addFails st.nextAdd = false ∧ env.openFails st.nextHandle = false ∧
    st' = { st with
            nextHandle := st.nextHandle + 1
            nextAdd := st.nextAdd + 1
            gpios := st.gpios ++ [st.nextHandle]
            trace := st.trace ++
              [.addEntity (entityId makeId d.name) d.name (.forSensor d.deviceClass),
               .openPin st.nextHandle d.pin .input (some .both),
               .push st.nextHandle, .watch st.nextHandle] } := by
  unfold createBinarySensor at h
  split at h
  · exact absurd h (by simp)
  · dsimp only at h
    split at h
    · exact absurd h (by simp)
    · refine ⟨by simp_all, by simp_all, ?_⟩
      cases h
      simp

theorem createBinarySensor_error {makeId : String → String} {env : Env}
    {st e : BridgeState} {d : SensorDecl}
    (h : createBinarySensor makeId env st d = .error e) :
    (env.addFails st.nextAdd = true ∧ e = st) ∨
    (env.addFails st.nextAdd = false ∧ env.openFails st.nextHandle = true ∧
      e = { st with
            nextAdd := st.nextAdd + 1
            trace := st.trace ++
              [.addEntity (entityId makeId d.name) d.name
                 (.forSensor d.deviceClass)] }) := by
  unfold createBinarySensor at h
  split at h
  · cases h
    exact Or.inl ⟨by simp_all, rfl⟩
  · dsimp only at h
    split at h
    · cases h
      exact Or.inr ⟨by simp_all, by simp_all, rfl⟩
    · exact absurd h (by simp)

theorem createSwitch_ok {makeId : String → String} {env : Env}
    {st st' : BridgeState} {d : SwitchDecl}
    (h : createSwitch makeId env st d = .ok st') :
    env.openFails st.nextHandle = false ∧ env.addFails st.nextAdd = false ∧
    st' = { st with
            nextHandle := st.nextHandle + 1
            nextAdd := st.nextAdd + 1
            gpios := st.gpios ++ [st.nextHandle]
            trace := st.trace ++
              [.openPin st.nextHandle d.pin .output none, .push st.nextHandle,
               .addEntity (entityId makeId d.name) d.name (.forSwitch d.icon)] } := by
  unfold createSwitch at h
  split at h
  · exact absurd h (by simp)
  · dsimp only at h
    split at h
    · exact absurd h (by simp)
    · refine ⟨by simp_all, by simp_all, ?_⟩
      cases h
      simp

theorem createSwitch_error {makeId : String → String} {env : Env}
    {st e : BridgeState} {d : SwitchDecl}
    (h : createSwitch makeId env st d = .error e) :
    (env.openFails st.nextHandle = true ∧ e = st) ∨
    (env.openFails st.nextHandle = false ∧ env.addFails st.nextAdd = true ∧
      e = { st with
            nextHandle := st.nextHandle + 1
            gpios := st.gpios ++ [st.nextHandle]
            trace := st.trace ++
              [.openPin st.nextHandle d.pin .output none,
               .push st.nextHandle] }) := by
  unfold createSwitch at h
  split at h
  · cases h
    exact Or.inl ⟨by simp_all, rfl⟩
  · dsimp only at h
    split at h
    · cases h
      exact Or.inr ⟨by simp_all, by simp_all, rfl⟩
    · exact absurd h (by simp)

theorem regInv_createBinarySensor_ok {makeId : String → String} {env : Env}
    {st st' : BridgeState} {d : SensorDecl} (hinv : RegInv st)
    (h : createBinarySensor makeId env st d = .ok st') : RegInv st' := by
  obtain ⟨-, -, rfl⟩ := createBinarySensor_ok h
  obtain ⟨hg, ht⟩ := hinv
  constructor
  · simpa [hg] using (List.range_succ (n := st.nextHandle)).symm
  · simp only [openedHandles_append, ht, List.range_succ]
    simp [openedHandles]

theorem regInv_createBinarySensor_error {makeId : String → String} {env : Env}
    {st e : BridgeState} {d : SensorDecl} (hinv : RegInv st)
    (h : createBinarySensor makeId env st d = .error e) : RegInv e := by
  obtain ⟨hg, ht⟩ := hinv
  rcases createBinarySensor_error h with ⟨-, rfl⟩ | ⟨-, -, rfl⟩
  · exact ⟨hg, ht⟩
  · refine ⟨hg, ?_⟩
    simp only [openedHandles_append, ht]
    simp [openedHandles]

theorem regInv_createSwitch_ok {makeId : String → String} {env : Env}
    {st st' : BridgeState} {d : SwitchDecl} (hinv : RegInv st)
    (h : createSwitch makeId env st d = .ok st') : RegInv st' := by
  obtain ⟨-, -, rfl⟩ := createSwitch_ok h
  obtain ⟨hg, ht⟩ := hinv
  constructor
  · simpa [hg] using (List.range_succ (n := st.nextHandle)).symm
  · simp only [openedHandles_append, ht, List.range_succ]
    simp [openedHandles]

theorem regInv_createSwitch_error {makeId : String → String} {env : Env}
    {st e : BridgeState} {d : SwitchDecl} (hinv : RegInv st)
    (h : createSwitch makeId env st d = .error e) : RegInv e := by
  obtain ⟨hg, ht⟩ := hinv
  rcases createSwitch_error h with ⟨-, rfl⟩ | ⟨-, -, rfl⟩
  · exact ⟨hg, ht⟩
  · constructor
    · simpa [hg] using (List.range_succ (n := st.nextHandle)).symm
    · simp only [openedHandles_append, ht, List.range_succ]
      simp [openedHandles]

theorem regInv_processSensors_ok {makeId : String → String} {env : Env}
    {ds : List SensorDecl} :
    ∀ {st st' : BridgeState}, RegInv st →
      processSensors makeId env st ds = .ok st' → RegInv st' := by
  induction ds with
  | nil =>
    intro st st' hinv h
    cases h
    exact hinv
  | cons d ds ih =>
    intro st st' hinv h
    unfold processSensors at h
    split at h
    · exact ih (regInv_createBinarySensor_ok hinv (by assumption)) h
    · exact absurd h (by simp)

theorem regInv_processSensors_error {makeId : String → String} {env : Env}
    {ds : List SensorDecl} :
    ∀ {st e : BridgeState}, RegInv st →
      processSensors makeId env st ds = .error e → RegInv e := by
  induction ds with
  | nil =>
    intro st e hinv h
    exact absurd h (by simp [processSensors])
  | cons d ds ih =>
    intro st e hinv h
    unfold processSensors at h
    split at h
    · exact ih (regInv_createBinarySensor_ok hinv (by assumption)) h
    · cases h
      exact regInv_createBinarySensor_error hinv (by assumption)

theorem regInv_processSwitches_ok {makeId : String → String} {env : Env}
    {ds : List SwitchDecl} :
    ∀ {st st' : BridgeState}, RegInv st →
      processSwitches makeId env st ds = .ok st' → RegInv st' := by
  induction ds with
  | nil =>
    intro st st' hinv h
    cases h
    exact hinv
  | cons d ds ih =>
    intro st st' hinv h
    unfold processSwitches at h
    split at h
    · exact ih (regInv_createSwitch_ok hinv (by assumption)) h
    · exact absurd h (by simp)

theorem regInv_processSwitches_error {makeId : String → String} {env : Env}
    {ds : List SwitchDecl} :
    ∀ {st e : BridgeState}, RegInv st →
      processSwitches makeId env st ds = .error e → RegInv e := by
  induction ds with
  | nil =>
    intro st e hinv h
    exact absurd h (by simp [processSwitches])
  | cons d ds ih =>
    intro st e hinv h
    unfold processSwitches at h
    split at h
    · exact ih (regInv_createSwitch_ok hinv (by assumption)) h
    · cases h
      exact regInv_createSwitch_error hinv (by assumption)

theorem regInv_bootstrap_ok {makeId : String → String} {env : Env}
    {cfg : GpioConfig} {st : BridgeState}
    (h : onApplicationBootstrap makeId env cfg = .ok st) : RegInv st := by
  unfold onApplicationBootstrap at h
  split at h
  · exact regInv_processSwitches_ok
      (regInv_processSensors_ok regInv_initial (by assumption)) h
  · exact absurd h (by simp)

theorem processSensors_ok_nextHandle {makeId : String → String} {env : Env}
    {ds : List SensorDecl} :
    ∀ {st st' : BridgeState}, processSensors makeId env st ds = .ok st' →
      st'.nextHandle = st.nextHandle + ds.length := by
  induction ds with
  | nil =>
    intro st st' h
    cases h
    rfl
  | cons d ds ih =>
    intro st st' h
    unfold processSensors at h
    split at h
    · have h1 := createBinarySensor_ok (by assumption)
      have h2 := ih h
      rw [h2, h1.2.2]
      simp
      omega
    · exact absurd h (by simp)

theorem processSwitches_ok_nextHandle {makeId : String → String} {env : Env}
    {ds : List SwitchDecl} :
    ∀ {st st' : BridgeState}, processSwitches makeId env st ds = .ok st' →
      st'.nextHandle = st.nextHandle + ds.length := by
  induction ds with
  | nil =>
    intro st st' h
    cases h
    rfl
  | cons d ds ih =>
    intro st st' h
    unfold processSwitches at h
    split at h
    · have h1 := createSwitch_ok (by assumption)
      have h2 := ih h
      rw [h2, h1.2.2]
      simp
      omega
    · exact absurd h (by simp)

theorem bootstrap_ok_nextHandle {makeId : String → String} {env : Env}
    {cfg : GpioConfig} {st : BridgeState}
    (h : onApplicationBootstrap makeId env cfg = .ok st) :
    st.nextHandle = cfg.binarySensors.length + cfg.switches.length := by
  unfold onApplicationBootstrap at h
  split at h
  · have h1 := processSensors_ok_nextHandle (by assumption)
    have h2 := processSwitches_ok_nextHandle h
    rw [h2, h1]
    simp [initialState]
  · exact absurd h (by simp)

theorem shutdownCalls_no_failure {env : Env} {l : List Nat}
    (h : ∀ x ∈ l, env.unexportFails x = false) :
    shutdownCalls env l = (l, none) := by
  induction l with
  | nil => rfl
  | cons a l ih =>
    have ha : env.unexportFails a = false := h a (by simp)
    have hl := ih fun x hx => h x (by simp [hx])
    simp [shutdownCalls, ha, hl]

theorem watchCallback_writes (levels : List Nat) :
    ∀ s : SensorSim,
      ((levels.map Notification.ok).foldl watchCallback s).writes
        = s.writes ++ levels.map (fun v => v != 0) := by
  induction levels with
  | nil =>
    intro s
    simp
  | cons v levels ih =>
    intro s
    simp only [List.map_cons, List.foldl_cons, ih]
    simp [watchCallback]

theorem processSensors_error_append {makeId : String → String} {env : Env}
    {ds : List SensorDecl} :
    ∀ {st e : BridgeState}, processSensors makeId env st ds = .error e →
      ∀ ds', processSensors makeId env st (ds ++ ds') = .error e := by
  induction ds with
  | nil =>
    intro st e h
    exact absurd h (by simp [processSensors])
  | cons d ds ih =>
    intro st e h ds'
    rw [List.cons_append]
    unfold processSensors at h ⊢
    cases hc : createBinarySensor makeId env st d with
    | ok st' =>
      rw [hc] at h
      simp only [hc]
      exact ih h ds'
    | error e' =>
      rw [hc] at h
      simp only [hc]
      exact h

theorem processSwitches_error_append {makeId : String → String} {env : Env}
    {ds : List SwitchDecl} :
    ∀ {st e : BridgeState}, processSwitches makeId env st ds = .error e →
      ∀ ds', processSwitches makeId env st (ds ++ ds') = .error e := by
  induction ds with
  | nil =>
    intro st e h
    exact absurd h (by simp [processSwitches])
  | cons d ds ih =>
    intro st e h ds'
    rw [List.cons_append]
    unfold processSwitches at h ⊢
    cases hc : createSwitch makeId env st d with
    | ok st' =>
      rw [hc] at h
      simp only [hc]
      exact ih h ds'
    | error e' =>
      rw [hc] at h
      simp only [hc]
      exact h

theorem string_append_left_cancel {p a b : String} (h : p ++ a = p ++ b) :
    a = b := by
  have hd := congrArg String.data h
  simp only [String.data_append] at hd
  exact String.ext (List.append_cancel_left hd)

/-! Claim theorems. -/

/-- Claim C1: after a bootstrap run that registers N binary sensors and M
switches without error, a single shutdown (with no release failures)
invokes `unexport` on exactly N+M distinct pin handles, each exactly once,
in the order the handles were opened: the invocation list equals the list
of opened handles in opening order, which is `List.range (N+M)` and has no
duplicates. -/
theorem shutdown_releases_all (makeId : String → String) (env : Env)
    (cfg : GpioConfig) (st : BridgeState)
    (hboot : onApplicationBootstrap makeId env cfg = .ok st)
    (hrel : ∀ x ∈ st.gpios, env.unexportFails x = false) :
    shutdownCalls env st.gpios = (openedHandles st.trace, none)
    ∧ openedHandles st.trace
        = List.range (cfg.binarySensors.length + cfg.switches.length)
    ∧ (openedHandles st.trace).Nodup := by
  obtain ⟨hg, ht⟩ := regInv_bootstrap_ok hboot
  have hn := bootstrap_ok_nextHandle hboot
  refine ⟨?_, ?_, ?_⟩
  · rw [shutdownCalls_no_failure hrel, hg, ht]
  · rw [ht, hn]
  · rw [ht]
    exact List.nodup_range _

/-- Witness for C1 at the concrete configuration `cfgW` (one sensor, one
switch) on the all-succeeding oracle. -/
theorem shutdown_releases_all_witness :
    shutdownCalls envOkAll stW.gpios = (openedHandles stW.trace, none)
    ∧ openedHandles stW.trace
        = List.range (cfgW.binarySensors.length + cfgW.switches.length)
    ∧ (openedHandles stW.trace).Nodup :=
  shutdown_releases_all id envOkAll cfgW stW rfl (by decide)

/-- Claim C2 counterexample: on a registry `[0, 1]` where `unexport` of
handle 0 throws, shutdown does NOT attempt the remaining handle 1 and the
error propagates (`some 0`), contradicting the claim that shutdown still
attempts every remaining handle and only logs the failure.  The source
loop `this.gpios.forEach((gpio) => gpio.unexport())` has no error
handling. -/
theorem shutdown_stops_on_release_error_cex :
    shutdownCalls envRelFail0 [0, 1] = ([0], some 0)
    ∧ 1 ∉ (shutdownCalls envRelFail0 [0, 1]).1 := by
  decide

/-- Claim C2 (amended): if releasing one handle during shutdown throws,
the handles before it in the registry have been attempted, the failing
handle itself is attempted, no later handle is attempted, and the error
propagates to the caller. -/
theorem shutdown_stops_on_release_error (env : Env) (pre : List Nat)
    (h : Nat) (rest : List Nat)
    (hpre : ∀ x ∈ pre, env.unexportFails x = false)
    (hfail : env.unexportFails h = true) :
    shutdownCalls env (pre ++ h :: rest) = (pre ++ [h], some h) := by
  induction pre with
  | nil => simp [shutdownCalls, hfail]
  | cons a pre ih =>
    have ha : env.unexportFails a = false := hpre a (by simp)
    have hr := ih fun x hx => hpre x (by simp [hx])
    simp [shutdownCalls, ha, hr]

/-- Witness for the amended C2: registry `[1, 0, 2]`, `unexport` of handle
0 throws; handles 1 and 0 are attempted, 2 is not, and the error
propagates. -/
theorem shutdown_stops_on_release_error_witness :
    shutdownCalls envRelFail0 ([1] ++ 0 :: [2]) = ([1] ++ [0], some 0) :=
  shutdown_stops_on_release_error envRelFail0 [1] 0 [2] (by decide) rfl

/-- Claim C3: a successfully processed sensor declaration registers, in
this order, an entity whose id is `makeId` applied to `"gpio " ++ name`
carrying the `deviceClass` customization, then opens the declared pin as
an input watching both edges, pushes the handle and attaches the watch
callback; and for any sequence of successful edge notifications, the
sequence of state values written by the callback equals the boolean
interpretation `level != 0` of each notification, in order, none dropped
or duplicated. -/
theorem sensor_registration_and_updates (makeId : String → String)
    (env : Env) (st st' : BridgeState) (d : SensorDecl)
    (hok : createBinarySensor makeId env st d = .ok st')
    (levels : List Nat) :
    st'.trace = st.trace ++
      [.addEntity (makeId ("gpio " ++ d.name)) d.name
         (.forSensor d.deviceClass),
       .openPin st.nextHandle d.pin .input (some .both),
       .push st.nextHandle, .watch st.nextHandle]
    ∧ ((levels.map Notification.ok).foldl watchCallback sensorInit).writes
        = levels.map (fun v => v != 0) := by
  obtain ⟨-, -, rfl⟩ := createBinarySensor_ok hok
  exact ⟨rfl, by simpa [sensorInit] using watchCallback_writes levels sensorInit⟩

/-- Witness for C3 at the concrete declaration `dW` and the level sequence
`[1, 0, 3]`. -/
theorem sensor_registration_and_updates_witness :
    stSensorW.trace = initialState.trace ++
      [.addEntity (id ("gpio " ++ dW.name)) dW.name
         (.forSensor dW.deviceClass),
       .openPin initialState.nextHandle dW.pin .input (some .both),
       .push initialState.nextHandle, .watch initialState.nextHandle]
    ∧ (([1, 0, 3].map Notification.ok).foldl watchCallback sensorInit).writes
        = [1, 0, 3].map (fun v => v != 0) :=
  sensor_registration_and_updates id envOkAll initialState stSensorW dW rfl
    [1, 0, 3]

/-- Claim C4: a notification carrying a read error logs the error and
leaves the sensor state unchanged, and the watcher still delivers the next
successful notification, which updates the state and the write history as
usual. -/
theorem read_error_leaves_state_and_watcher (s : SensorSim) (v : Nat) :
    (watchCallback s .err).state = s.state
    ∧ (watchCallback s .err).errorsLogged = s.errorsLogged + 1
    ∧ (watchCallback (watchCallback s .err) (.ok v)).state = some (v != 0)
    ∧ (watchCallback (watchCallback s .err) (.ok v)).writes
        = s.writes ++ [v != 0] :=
  ⟨rfl, rfl, rfl, rfl⟩

/-- Claim C5: after a bootstrap run that completes without error, the
`gpios` registry equals the list of opened handles in opening order and
contains no duplicates: every opened handle appears exactly once. -/
theorem registry_complete_after_bootstrap (makeId : String → String)
    (env : Env) (cfg : GpioConfig) (st : BridgeState)
    (hboot : onApplicationBootstrap makeId env cfg = .ok st) :
    st.gpios = openedHandles st.trace ∧ st.gpios.Nodup := by
  obtain ⟨hg, ht⟩ := regInv_bootstrap_ok hboot
  rw [hg, ht]
  exact ⟨rfl, List.nodup_range _⟩

/-- Witness for C5 at the concrete configuration `cfgW`. -/
theorem registry_complete_after_bootstrap_witness :
    stW.gpios = openedHandles stW.trace ∧ stW.gpios.Nodup :=
  registry_complete_after_bootstrap id envOkAll cfgW stW rfl

/-- Claim C6: a failure while processing a declaration aborts the whole
bootstrap.  If the sensor loop fails with error state `e1`, then bootstrap
on any extension of the sensor list fails with the same `e1` — later
sensor declarations and the entire switch list are never processed (the
error state, hence the set of registered entities and opened pins, is
unchanged) and the failure propagates.  Likewise a failing switch loop
yields the same error state on any extension of the switch list. -/
theorem bootstrap_aborts_on_failure (makeId : String → String) (env : Env)
    (ss ss' : List SensorDecl) (ws ws' ws0 : List SwitchDecl)
    (st e1 e2 : BridgeState)
    (hs : processSensors makeId env initialState ss = .error e1)
    (hw : processSwitches makeId env st ws = .error e2) :
    onApplicationBootstrap makeId env ⟨ss ++ ss', ws0⟩ = .error e1
    ∧ processSwitches makeId env st (ws ++ ws') = .error e2 := by
  constructor
  · unfold onApplicationBootstrap
    simp only [processSensors_error_append hs ss']
  · exact processSwitches_error_append hw ws'

/-- Witness for C6: on the oracle where every registry `add` throws, the
sensor loop on `[dW]` fails immediately with the initial state, so
bootstrap with a further sensor and a switch fails identically; and the
switch loop on `[wW]` fails with the pin already open, unchanged when
`[wW2]` is appended. -/
theorem bootstrap_aborts_on_failure_witness :
    onApplicationBootstrap id envAddFailAll ⟨[dW] ++ [dW2], [wW]⟩
        = .error initialState
    ∧ processSwitches id envAddFailAll initialState ([wW] ++ [wW2])
        = .error eSwW :=
  bootstrap_aborts_on_failure id envAddFailAll [dW] [dW2] [wW] [wW2] [wW]
    initialState initialState eSwW rfl rfl

/-- Claim C7: two declarations with different names receive different
entity ids, provided the external id derivation `makeId` is injective on
distinct seeds (as the spec assumes). -/
theorem distinct_names_distinct_ids (makeId : String → String)
    (hinj : Function.Injective makeId) (n1 n2 : String) (hne : n1 ≠ n2) :
    entityId makeId n1 ≠ entityId makeId n2 := by
  intro h
  exact hne (string_append_left_cancel (hinj h))

/-- Witness for C7 at the names of `dW` and `wW` with the identity id
derivation. -/
theorem distinct_names_distinct_ids_witness :
    entityId id dW.name ≠ entityId id wW.name :=
  distinct_names_distinct_ids id (fun _ _ h => h) dW.name wW.name
    (by decide)

/-- Claim C8: `GpioSwitch.setState` performs exactly one pin write of
level `desired ? 1 : 0`; on a successful write the externally visible
state becomes the desired value, and on a failed write the state keeps
its prior value (the single failed write attempt is still made). -/
theorem setState_writes_and_state (sw : GpioSwitchSim) (desired : Bool) :
    (GpioSwitch.setState true sw desired).1.pinWrites
        = sw.pinWrites ++ [if desired then 1 else 0]
    ∧ (GpioSwitch.setState true sw desired).1.state = some desired
    ∧ (GpioSwitch.setState false sw desired).1.pinWrites
        = sw.pinWrites ++ [if desired then 1 else 0]
    ∧ (GpioSwitch.setState false sw desired).1.state = sw.state :=
  ⟨rfl, rfl, rfl, rfl⟩

/-- Claim C9: when bootstrap fails partway, the error state's registry
still lists exactly the handles whose open succeeded before the failing
step, in opening order and without duplicates — each handle is pushed
immediately after its open succeeds, and a handle whose construction threw
is never pushed. -/
theorem partial_failure_registry (makeId : String → String) (env : Env)
    (cfg : GpioConfig) (e : BridgeState)
    (hfail : onApplicationBootstrap makeId env cfg = .error e) :
    e.gpios = openedHandles e.trace ∧ e.gpios.Nodup := by
  unfold onApplicationBootstrap at hfail
  split at hfail
  · obtain ⟨hg, ht⟩ := regInv_processSwitches_error
      (regInv_processSensors_ok regInv_initial (by assumption)) hfail
    rw [hg, ht]
    exact ⟨rfl, List.nodup_range _⟩
  · cases hfail
    obtain ⟨hg, ht⟩ := regInv_processSensors_error regInv_initial
      (by assumption)
    rw [hg, ht]
    exact ⟨rfl, List.nodup_range _⟩

/-- Witness for C9: two sensors on the oracle where the construction of
handle 1 throws; bootstrap fails in state `eW9`, whose registry holds
exactly the one successfully opened handle. -/
theorem partial_failure_registry_witness :
    eW9.gpios = openedHandles eW9.trace ∧ eW9.gpios.Nodup :=
  partial_failure_registry id envOpenFail1 ⟨[dW, dW2], []⟩ eW9 rfl

/-- Claim C10: the order of effects differs by declaration kind.  A sensor
declaration registers its entity before opening the pin, so a registration
failure opens no pin while an open failure leaves a registered entity with
no watcher; a switch declaration opens and pushes the pin before
registering, so a registration failure leaves the pin open and tracked for
release. -/
theorem effect_order_by_kind (makeId : String → String) (st : BridgeState)
    (d : SensorDecl) (w : SwitchDecl) (envOk envAdd envOpen : Env)
    (hOkA : envOk.addFails st.nextAdd = false)
    (hOkO : envOk.openFails st.nextHandle = false)
    (hAddF : envAdd.addFails st.nextAdd = true)
    (hAddO : envAdd.openFails st.nextHandle = false)
    (hOpA : envOpen.addFails st.nextAdd = false)
    (hOpO : envOpen.openFails st.nextHandle = true) :
    createBinarySensor makeId envOk st d = .ok { st with
        nextHandle := st.nextHandle + 1
        nextAdd := st.nextAdd + 1
        gpios := st.gpios ++ [st.nextHandle]
        trace := st.trace ++
          [.addEntity (entityId makeId d.name) d.name
             (.forSensor d.deviceClass),
           .openPin st.nextHandle d.pin .input (some .both),
           .push st.nextHandle, .watch st.nextHandle] }
    ∧ createBinarySensor makeId envAdd st d = .error st
    ∧ createBinarySensor makeId envOpen st d = .error { st with
        nextAdd := st.nextAdd + 1
        trace := st.trace ++
          [.addEntity (entityId makeId d.name) d.name
             (.forSensor d.deviceClass)] }
    ∧ createSwitch makeId envOk st w = .ok { st with
        nextHandle := st.nextHandle + 1
        nextAdd := st.nextAdd + 1
        gpios := st.gpios ++ [st.nextHandle]
        trace := st.trace ++
          [.openPin st.nextHandle w.pin .output none, .push st.nextHandle,
           .addEntity (entityId makeId w.name) w.name (.forSwitch w.icon)] }
    ∧ createSwitch makeId envAdd st w = .error { st with
        nextHandle := st.nextHandle + 1
        gpios := st.gpios ++ [st.nextHandle]
        trace := st.trace ++
          [.openPin st.nextHandle w.pin .output none,
           .push st.nextHandle] } := by
  refine ⟨?_, ?_, ?_, ?_, ?_⟩ <;>
    simp [createBinarySensor, createSwitch, hOkA, hOkO, hAddF, hAddO, hOpA,
      hOpO]

/-- Witness for C10 at the concrete declarations `dW` and `wW` from the
initial state, on the all-succeeding, all-adds-fail and all-opens-fail
oracles. -/
theorem effect_order_by_kind_witness :
    createBinarySensor id envOkAll initialState dW = .ok stSensorW
    ∧ createBinarySensor id envAddFailAll initialState dW
        = .error initialState
    ∧ createBinarySensor id envOpenFailAll initialState dW = .error eSenOpenW
    ∧ createSwitch id envOkAll initialState wW = .ok stSwitchW
    ∧ createSwitch id envAddFailAll initialState wW = .error eSwW :=
  effect_order_by_kind id initialState dW wW envOkAll envAddFailAll
    envOpenFailAll rfl rfl rfl rfl rfl rfl

end GpioService
